import Mathlib

/-!
# A shallow embedding of `src/app.py`

The program loads a spreadsheet of booking records (`load_data`), builds a
frequency-distribution table (`create_frequency_table`) and chart statistics
(`plot_histogram`).  This file embeds those functions as Lean definitions and
proves/refutes the specification claims about them.

Modelling decisions, each matching the pandas semantics of the source:

* A loaded row (`Record`) carries `Id_Person`, `FirstName`, `Class_Name` and
  the month-period key of `Start_Date_time`.  Only the month granularity of
  the timestamp is ever observed by `create_frequency_table`
  (`dt.to_period("M").astype(str)`), so `startMonth` stores that key;
  `none` models a `NaT` produced by `pd.to_datetime(..., errors="coerce")`,
  and `astype(str)` renders `NaT` as the string `"NaT"` (see `periodStr`).
  `none` in the other fields models a missing cell (`NaN`).
* Python string comparison (`>=`, `<=`) is lexicographic on code points,
  which is exactly `String.le` / `String.lt` in Lean (`strLe`).
* `df.groupby(k)` sorts the group keys ascending and drops `NaN` keys;
  `groupby(k).size()` is modelled by `bookingFrequencies` (sorted distinct
  non-null ids paired with their row counts).
* `freq_counts = pd.Series(0, index=range(1, max_upper + 2))` followed by
  `freq_counts.update(booking_frequencies.value_counts())` gives, at each
  label `i ∈ 1..max_upper+1`, the number of persons with exactly `i`
  bookings (`freq_counts`); counts larger than `max_upper + 1` are *not*
  represented anywhere in the series, because `update` only writes labels
  already present in the index.
* `freq_counts[max_upper + 1:]` is a slice under `Series.__getitem__`: on an
  integer-indexed Series an integer slice is interpreted *positionally*
  (`Index._convert_slice_indexer` with `kind="getitem"` returns the raw
  slice when the index is integer).  The series has `max_upper + 1`
  elements, so dropping the first `max_upper + 1` leaves the empty series
  and its sum is `0` (`overflowCell`).
* In `get_student_details`, `student_info.items()` yields
  `(index, value) = (Id_Person, FirstName)` pairs; the source unpacks them
  as `for name, id in ...`, so `name` is bound to the person id and `id` to
  the first name, and the rendered entry is `f"{Id_Person} : {FirstName}"`.
  `groupby(...)["FirstName"].first()` takes the first non-null name of the
  group (rendered `"nan"` when every name of the group is null).
* `.str.contains("Self Practice", case=False, na=False)` is
  case-insensitive substring search, `False` on a missing cell; for the
  ASCII needle it is equivalent to ASCII-lowercasing both sides
  (`selfPracticeMatch`).
* pandas `mean`/`median` of an empty selection are `NaN`; `Option ℚ` models
  the defined/undefined distinction with `none` for `NaN`.
-/

/-- One row of the loaded spreadsheet, after `load_data` has coerced the
timestamp column.  `startMonth` is the `dt.to_period("M").astype(str)` key of
`Start_Date_time` (`none` = `NaT`); `none` elsewhere models a missing cell. -/
structure Record where
  idPerson   : Option Nat
  firstName  : Option String
  className  : Option String
  startMonth : Option String
deriving DecidableEq

/-- Python truthiness of an optional string argument (`if period:`):
`None` and `""` are falsy. -/
def truthy : Option String → Bool
  | none => false
  | some s => !(s == "")

/-- `data["Start_Date_time"].dt.to_period("M").astype(str)` for one row:
the month key of a parsed timestamp, the string `"NaT"` for a null one. -/
def periodStr (r : Record) : String :=
  match r.startMonth with
  | some k => k
  | none => "NaT"

/-- Python `a <= b` on strings: lexicographic comparison by code points.
Since the order is total, `a <= b` is `¬ (b < a)` with `<` the strict
lexicographic order on the character sequences (`List.lt` over `Char`). -/
def strLe (a b : String) : Bool := !(decide (b.data < a.data))

/-- The boolean period mask of `create_frequency_table` (lines 21-26 of
`app.py`): exact match when `period` is truthy, closed-interval string
comparison when both range ends are truthy, otherwise all-pass. -/
def periodMask (period sp ep : Option String) (r : Record) : Bool :=
  if truthy period then periodStr r == period.getD ""
  else if truthy sp && truthy ep then
    strLe (sp.getD "") (periodStr r) && strLe (periodStr r) (ep.getD "")
  else true

/-- Lower-casing of a string's character sequence (`str.lower()` /
`String.toLower`, written directly on the character list). -/
def lowerData (s : String) : List Char := s.data.map Char.toLower

/-- `row["Class_Name"].str.contains("Self Practice", case=False, na=False)`:
case-insensitive substring match, `false` for a missing cell. -/
def selfPracticeMatch : Option String → Bool
  | none => false
  | some s => decide (lowerData "Self Practice" <:+: lowerData s)

/-- The combined row filter of line 28:
`data[mask & ~data["Class_Name"].str.contains(..., na=False)]`. -/
def recordKept (period sp ep : Option String) (r : Record) : Bool :=
  periodMask period sp ep r && !(selfPracticeMatch r.className)

/-- `data_filtered` of line 28. -/
def filteredRecords (data : List Record) (period sp ep : Option String) :
    List Record :=
  data.filter (recordKept period sp ep)

/-- Insertion into a (weakly) sorted list of ids. -/
def insertSorted (a : Nat) : List Nat → List Nat
  | [] => [a]
  | b :: bs => if a ≤ b then a :: b :: bs else b :: insertSorted a bs

/-- Ascending insertion sort; models the ascending key order produced by
`groupby(..., sort=True)` (the pandas default). -/
def sortNats (l : List Nat) : List Nat := l.foldr insertSorted []

/-- The group keys of `data_filtered.groupby("Id_Person")`: the distinct
non-null ids, sorted ascending (`groupby` drops `NaN` keys). -/
def groupIds (l : List Record) : List Nat :=
  sortNats (l.filterMap (fun r => r.idPerson)).dedup

/-- Number of rows of `l` carrying the id `i` (a group size). -/
def countFor (l : List Record) (i : Nat) : Nat :=
  (l.filter (fun r => r.idPerson == some i)).length

/-- `booking_frequencies = data_filtered.groupby("Id_Person").size()`:
sorted distinct ids paired with their booking counts. -/
def bookingFrequencies (l : List Record) : List (Nat × Nat) :=
  (groupIds l).map (fun i => (i, countFor l i))

/-- The series `freq_counts` after `update(booking_frequencies.value_counts())`,
read at label `i`: the number of persons whose booking count is exactly `i`
(for the labels `1..max_upper+1` present in the index; `update` writes
nothing for count values outside that index). -/
def freq_counts (l : List Record) (i : Nat) : Nat :=
  ((bookingFrequencies l).filter (fun p => p.2 == i)).length

/-- The values of the series `freq_counts` in label order `1..maxUpper+1`. -/
def freqCountsVals (l : List Record) (maxUpper : Nat) : List Nat :=
  (List.range' 1 (maxUpper + 1)).map (freq_counts l)

/-- `freq_counts[max_upper + 1:].sum()`: a positional slice past the end of
the `max_upper + 1`-element series, i.e. the sum of the empty series. -/
def overflowCell (l : List Record) (maxUpper : Nat) : Nat :=
  ((freqCountsVals l maxUpper).drop (maxUpper + 1)).sum

/-- The `#Students` column: `freq_counts[i]` for `i ∈ 1..max_upper`, then the
overflow cell. -/
def studentsCol (l : List Record) (maxUpper : Nat) : List Nat :=
  (List.range' 1 maxUpper).map (freq_counts l) ++ [overflowCell l maxUpper]

/-- The `Freq` column: the integers `1..max_upper` then the label
`f">{max_upper}"`. -/
def freqCol (maxUpper : Nat) : List (Nat ⊕ String) :=
  (List.range' 1 maxUpper).map Sum.inl ++ [Sum.inr (">" ++ toString maxUpper)]

/-- Running prefix sums with accumulator (`Series.cumsum`). -/
def cumsumFrom (acc : Nat) : List Nat → List Nat
  | [] => []
  | x :: xs => (acc + x) :: cumsumFrom (acc + x) xs

/-- `table["#Students"].cumsum()`. -/
def cumsum (l : List Nat) : List Nat := cumsumFrom 0 l

/-- `table["Cum ->End"] = sum - cumsum + col`, in `int64` arithmetic. -/
def cumToEndCol (students : List Nat) : List Int :=
  (cumsum students).zipWith
    (fun (c s : Nat) => (students.sum : Int) - (c : Int) + (s : Int)) students

/-- The ids selected by the mask of `get_student_details`: strict
`booking_frequencies > max_upper` for the string (overflow) label, exact
equality for a numeric one. -/
def bucketIds (l : List Record) (maxUpper : Nat) : (Nat ⊕ String) → List Nat
  | Sum.inr _ =>
    ((bookingFrequencies l).filter (fun p => decide (maxUpper < p.2))).map
      (fun p => p.1)
  | Sum.inl k =>
    ((bookingFrequencies l).filter (fun p => p.2 == k)).map (fun p => p.1)

/-- `data_filtered[data_filtered["Id_Person"].isin(ids)]`; a `NaN` id is in
no value set. -/
def restrictTo (l : List Record) (ids : List Nat) : List Record :=
  l.filter (fun r =>
    match r.idPerson with
    | some i => ids.contains i
    | none => false)

/-- `groupby("Id_Person")["FirstName"].first()` for the group of id `i`:
the first non-null name in row order. -/
def firstNameOf (l : List Record) (i : Nat) : Option String :=
  ((l.filter (fun r => r.idPerson == some i)).filterMap
    (fun r => r.firstName)).head?

/-- `student_info`: the id-restricted frame regrouped by `Id_Person`, each
group reduced to its first non-null `FirstName`; the resulting series is
indexed by the ascending distinct ids. -/
def student_info (l : List Record) (ids : List Nat) :
    List (Nat × Option String) :=
  (sortNats ((restrictTo l ids).filterMap (fun r => r.idPerson)).dedup).map
    (fun i => (i, firstNameOf (restrictTo l ids) i))

/-- Rendering of a `FirstName` group value in the f-string: a present name
prints itself, an all-null group's `NaN` prints as `"nan"`. -/
def renderName : Option String → String
  | some n => n
  | none => "nan"

/-- `get_student_details(freq)` (lines 44-53).  `student_info.items()` yields
`(index, value) = (Id_Person, FirstName)` pairs and the source unpacks them
as `for name, id in ...`, so the f-string `f"{name} : {id}"` renders
`"<Id_Person> : <FirstName>"`. -/
def get_student_details (l : List Record) (maxUpper : Nat) (f : Nat ⊕ String) :
    String :=
  String.intercalate ", "
    ((student_info l (bucketIds l maxUpper f)).map
      (fun p => toString p.1 ++ " : " ++ renderName p.2))

/-- The report table: the five columns built by `create_frequency_table`. -/
structure Table where
  freq : List (Nat ⊕ String)
  students : List Nat
  cumFromStart : List Nat
  cumToEnd : List Int
  details : List String
deriving DecidableEq

/-- The table built from the already-filtered frame (lines 30-56 of
`app.py`; everything after line 28 depends on the data only through
`data_filtered`). -/
def tableFrom (fl : List Record) (maxUpper : Nat) : Table :=
  let students := studentsCol fl maxUpper
  { freq := freqCol maxUpper
    students := students
    cumFromStart := cumsum students
    cumToEnd := cumToEndCol students
    details := (freqCol maxUpper).map (get_student_details fl maxUpper) }

/-- `create_frequency_table(data, period, start_period, end_period, max_upper)`.
The source has no error path: it always returns a table. -/
def create_frequency_table (data : List Record) (period sp ep : Option String)
    (maxUpper : Nat) : Table :=
  tableFrom (filteredRecords data period sp ep) maxUpper

/-- One raw spreadsheet row as `pd.read_excel` delivers it; `startCell` is
the raw content of the `Start_Date_time` cell. -/
structure RawRow where
  idPerson : Option Nat
  firstName : Option String
  className : Option String
  startCell : String
deriving DecidableEq

/-- A raw spreadsheet: whether the `Start_Date_time` column is present, and
the rows. -/
structure RawTable where
  hasStartCol : Bool
  rows : List RawRow
deriving DecidableEq

/-- Coercion of one row: `pd.to_datetime(..., errors="coerce")` turns an
unparseable cell into `NaT` (`none`); `parse` abstracts the timestamp
parser (month granularity, see `Record.startMonth`). -/
def coerceRow (parse : String → Option String) (r : RawRow) : Record :=
  { idPerson := r.idPerson, firstName := r.firstName,
    className := r.className, startMonth := parse r.startCell }

/-- `load_data` (lines 5-18): reports a load error (`none`) when the
timestamp column is absent or when `isna().all()` holds after coercion
(true in particular on an empty frame); otherwise returns every row, with
unparseable timestamps coerced to null. -/
def load_data (parse : String → Option String) (t : RawTable) :
    Option (List Record) :=
  if t.hasStartCol then
    if (t.rows.map (fun r => parse r.startCell)).all (fun o => o.isNone) then
      none
    else some (t.rows.map (coerceRow parse))
  else none

/-- `str(x)` of a `Freq` cell (an `int` for a numeric bucket, the overflow
label for the last one). -/
def freqLabelStr : Nat ⊕ String → String
  | Sum.inl n => toString n
  | Sum.inr s => s

/-- Python `str.isdigit` restricted to the ASCII strings at hand: true iff
the string is nonempty and all its characters are digits. -/
def pyIsDigit (s : String) : Bool :=
  match s.data with
  | [] => false
  | c :: cs => (c :: cs).all Char.isDigit

/-- `astype(int)` on a `Freq` cell: a numeric cell is itself; a string cell
parses its digits (only ever applied after the `isdigit` filter). -/
def astypeInt : Nat ⊕ String → Nat
  | Sum.inl n => n
  | Sum.inr s => s.toNat?.getD 0

/-- `student_counts.loc[student_counts.index.repeat(student_counts["#Students"])]`:
each surviving row contributes `#Students` copies of its `Freq`, in row
order. -/
def expandPairs : List ((Nat ⊕ String) × Nat) → List Nat
  | [] => []
  | p :: ps => List.replicate p.2 (astypeInt p.1) ++ expandPairs ps

/-- The multiset `expanded["Freq"]` of `plot_histogram` (lines 62-65): keep
the rows whose `Freq` renders as digits, then repeat each `Freq` by its
`#Students`. -/
def expandedFreqs (t : Table) : List Nat :=
  expandPairs ((t.freq.zip t.students).filter
    (fun p => pyIsDigit (freqLabelStr p.1)))

/-- Arithmetic mean of a list of naturals; `none` models the `NaN` that
pandas `mean()` returns on an empty selection. -/
def meanQ (l : List Nat) : Option ℚ :=
  match l with
  | [] => none
  | _ => some ((l.sum : ℚ) / (l.length : ℚ))

/-- pandas `median()`: sort, take the middle element (odd length) or the
average of the two middle elements (even length); `none` (`NaN`) when
empty. -/
def medianQ (l : List Nat) : Option ℚ :=
  match l with
  | [] => none
  | _ =>
    let s := sortNats l
    let n := l.length
    if n % 2 = 1 then some ((s.getD (n / 2) 0 : Nat) : ℚ)
    else
      some ((((s.getD (n / 2 - 1) 0 : Nat) : ℚ) + ((s.getD (n / 2) 0 : Nat) : ℚ)) / 2)

/-- The chart statistics `(mean_val, median_val)` of `plot_histogram`. -/
def plotStats (t : Table) : Option ℚ × Option ℚ :=
  (meanQ (expandedFreqs t), medianQ (expandedFreqs t))

/-- The expansion described by the specification: each numeric bucket
contributes `studentCount` copies of its `freq`; the overflow bucket is
excluded. -/
def specExpand : List ((Nat ⊕ String) × Nat) → List Nat
  | [] => []
  | (Sum.inl k, c) :: ps => List.replicate c k ++ specExpand ps
  | (Sum.inr _, _) :: ps => specExpand ps

/-- The specification's multiset for a table. -/
def specExpanded (t : Table) : List Nat := specExpand (t.freq.zip t.students)

/-- The ten decimal digit characters. -/
def digitChars : List Char := ['0', '1', '2', '3', '4', '5', '6', '7', '8', '9']

/-- A zero-padded year-month period key: exactly the shape `"YYYY-MM"` with
decimal digits, the domain the specification gives to `FilterSpec`
tokens. -/
def validPeriodKey (s : String) : Bool :=
  match s.data with
  | [y1, y2, y3, y4, d, m1, m2] =>
    decide (y1 ∈ digitChars) && decide (y2 ∈ digitChars) &&
    decide (y3 ∈ digitChars) && decide (y4 ∈ digitChars) &&
    (d == '-') && decide (m1 ∈ digitChars) && decide (m2 ∈ digitChars)
  | _ => false

/-- A valid `FilterSpec` as the specification defines it: a single period
key, or an inclusive range of two period keys (exactly one mode active). -/
inductive ValidFilter : Option String → Option String → Option String → Prop
  | single (k : String) (sp ep : Option String) :
      validPeriodKey k = true → ValidFilter (some k) sp ep
  | range (a b : String) :
      validPeriodKey a = true → validPeriodKey b = true →
      ValidFilter none (some a) (some b)

/-- Sample records used in the concrete evaluations: three bookings of person
`1` ("A"), one booking of person `3` ("Bob"), and a null-timestamp row of
person `2` ("B"), all in period `2024-01` where parsed. -/
def rA : Record := ⟨some 1, some "A", none, some "2024-01"⟩

/-- A single booking of person `3` named "Bob" in `2024-01`. -/
def rBob : Record := ⟨some 3, some "Bob", none, some "2024-01"⟩

/-- A row of person `2` whose timestamp failed to parse (`NaT`). -/
def rNull : Record := ⟨some 2, some "B", none, none⟩

theorem filter_mid {α : Type} (p : α → Bool) (A B : List α) (r : α)
    (h : p r = false) : (A ++ r :: B).filter p = (A ++ B).filter p := by
  simp [List.filter_append, List.filter_cons, h]

theorem filterMap_mid {α β : Type} (f : α → Option β) (A B : List α) (r : α)
    (h : f r = none) : (A ++ r :: B).filterMap f = (A ++ B).filterMap f := by
  simp [List.filterMap_append, List.filterMap_cons, h]

theorem cumsumFrom_length (acc : Nat) (l : List Nat) :
    (cumsumFrom acc l).length = l.length := by
  induction l generalizing acc with
  | nil => rfl
  | cons x xs ih => simp [cumsumFrom, ih]

theorem zipWith_getD (f : Nat → Nat → Int) (l1 l2 : List Nat) (i : Nat)
    (h1 : i < l1.length) (h2 : i < l2.length) :
    (List.zipWith f l1 l2).getD i 0 = f (l1.getD i 0) (l2.getD i 0) := by
  induction l1 generalizing l2 i with
  | nil => simp at h1
  | cons x xs ih =>
    cases l2 with
    | nil => simp at h2
    | cons y ys =>
      cases i with
      | zero => rfl
      | succ j =>
        simp only [List.zipWith_cons_cons, List.getD_cons_succ]
        exact ih ys j (Nat.lt_of_succ_lt_succ h1) (Nat.lt_of_succ_lt_succ h2)

theorem studentsCol_length (l : List Record) (m : Nat) :
    (studentsCol l m).length = m + 1 := by
  simp [studentsCol]

/-- C7: in every table returned by `create_frequency_table`,
`cumulativeFromStart[i] + cumulativeToEnd[i] = sum(studentCount) +
studentCount[i]` for every bucket `i` (numeric buckets and the overflow
bucket alike). -/
theorem C7_cumulative_identity (data : List Record) (p sp ep : Option String)
    (m i : Nat) (hi : i < m + 1) :
    (((create_frequency_table data p sp ep m).cumFromStart.getD i 0 : Nat) : Int) +
      (create_frequency_table data p sp ep m).cumToEnd.getD i 0 =
    (((create_frequency_table data p sp ep m).students.sum : Nat) : Int) +
      (((create_frequency_table data p sp ep m).students.getD i 0 : Nat) : Int) := by
  simp only [create_frequency_table, tableFrom]
  set S := studentsCol (filteredRecords data p sp ep) m with hS
  have hlen : S.length = m + 1 := studentsCol_length _ _
  rw [cumToEndCol, zipWith_getD _ _ _ i
    (by rw [cumsum, cumsumFrom_length, hlen]; omega) (by rw [hlen]; omega)]
  omega

/-- C7 witness: the identity instantiated at a concrete table and bucket. -/
theorem C7_cumulative_identity_witness :
    (1 : Nat) < 1 + 1 ∧
    (((create_frequency_table [rA] (some "2024-01") none none 1).cumFromStart.getD 1 0 : Nat) : Int) +
      (create_frequency_table [rA] (some "2024-01") none none 1).cumToEnd.getD 1 0 =
    (((create_frequency_table [rA] (some "2024-01") none none 1).students.sum : Nat) : Int) +
      (((create_frequency_table [rA] (some "2024-01") none none 1).students.getD 1 0 : Nat) : Int) :=
  ⟨by omega, C7_cumulative_identity [rA] (some "2024-01") none none 1 1 (by omega)⟩

/-- C1 (failing-input evaluation): with three bookings of one person in the
selected period and `max_upper = 1`, the person's count `3` is strictly
greater than `max_upper`, so the claim requires the overflow bucket to count
one person; the code's table reports `0` there (its `#Students` column is
`[0, 0]`), although one group of `booking_frequencies` does exceed
`max_upper`. -/
theorem C1_overflow_miscount :
    (create_frequency_table [rA, rA, rA] (some "2024-01") none none 1).students = [0, 0] ∧
    ((bookingFrequencies (filteredRecords [rA, rA, rA] (some "2024-01") none none)).filter
      (fun p => decide (1 < p.2))).length = 1 := by
  constructor
  · rfl
  · rfl

/-- C2 (failing-input evaluation): on the same data the table's
`#Students` column sums to `0`, while one distinct person has at least one
qualifying record. -/
theorem C2_sum_miscount :
    (create_frequency_table [rA, rA, rA] (some "2024-01") none none 1).students.sum = 0 ∧
    (groupIds (filteredRecords [rA, rA, rA] (some "2024-01") none none)).length = 1 := by
  constructor
  · rfl
  · rfl

/-- C3 (failing-input evaluation): for a single booking of person `3` named
"Bob", the details cell of the `freq = 1` bucket is `"3 : Bob"` — the pair is
rendered as `"id : name"`, not the `"name : id"` the claim states. -/
theorem C3_details_swapped :
    (create_frequency_table [rBob] (some "2024-01") none none 1).details.getD 0 "" = "3 : Bob" ∧
    "3 : Bob" ≠ "Bob : 3" := by
  constructor
  · rfl
  · decide

/-- C10 (failing-input evaluation): on the overflow bucket of the
three-bookings example the details cell `"1 : A"` holds one entry (the
`student_info` series for that bucket has length one) while the bucket's
`studentCount` is `0`. -/
theorem C10_details_count_mismatch :
    (student_info (filteredRecords [rA, rA, rA] (some "2024-01") none none)
      (bucketIds (filteredRecords [rA, rA, rA] (some "2024-01") none none) 1
        (Sum.inr ">1"))).length = 1 ∧
    (create_frequency_table [rA, rA, rA] (some "2024-01") none none 1).students.getD 1 0 = 0 ∧
    (create_frequency_table [rA, rA, rA] (some "2024-01") none none 1).details.getD 1 "" = "1 : A" := by
  refine ⟨rfl, rfl, rfl⟩

/-- C4 counterexample: called with a filter specification that is neither a
single period nor a range (all three arguments `none`), the claim requires a
reported error and no table; the code instead silently returns a fully
computed table over the unfiltered data — here with person `1` counted in
the `freq = 1` bucket and listed in its details. -/
theorem C4_counterexample :
    (create_frequency_table [rA] none none none 1).students = [1, 0] ∧
    (create_frequency_table [rA] none none none 1).details = ["1 : A", ""] := by
  refine ⟨rfl, rfl⟩

/-- C4 amended: `create_frequency_table` never reports an error; whenever the
filter specification is neither a truthy single period nor a pair of truthy
range endpoints, it silently computes the table over all records with only
the category exclusion applied (the period mask passes every record). -/
theorem C4_never_fails_silently_computes (data : List Record)
    (p sp ep : Option String) (m : Nat) (h1 : truthy p = false)
    (h2 : (truthy sp && truthy ep) = false) :
    create_frequency_table data p sp ep m =
      tableFrom (data.filter (fun r => !(selfPracticeMatch r.className))) m := by
  unfold create_frequency_table
  congr 1
  unfold filteredRecords
  apply List.filter_congr
  intro r _
  simp [recordKept, periodMask, h1, h2]

/-- C4 witness: the amended statement instantiated with all-`none` filter
arguments on a one-record data set. -/
theorem C4_never_fails_witness :
    truthy none = false ∧
    create_frequency_table [rA] none none none 1 =
      tableFrom ([rA].filter (fun r => !(selfPracticeMatch r.className))) 1 :=
  ⟨rfl, C4_never_fails_silently_computes [rA] none none none 1 rfl rfl⟩

theorem digitChar_lt_N {c : Char} (h : c ∈ digitChars) : c < 'N' := by
  fin_cases h <;> decide

theorem valid_first_digit {s : String} (h : validPeriodKey s = true) :
    ∃ c rest, s.data = c :: rest ∧ c ∈ digitChars := by
  rcases s with ⟨data⟩
  unfold validPeriodKey at h
  rcases data with _ | ⟨y1, _ | ⟨y2, _ | ⟨y3, _ | ⟨y4, _ | ⟨d, _ | ⟨m1, _ | ⟨m2, _ | ⟨x, rest⟩⟩⟩⟩⟩⟩⟩⟩ <;>
    simp only [Bool.and_eq_true, decide_eq_true_eq] at h
  case cons.cons.cons.cons.cons.cons.cons.nil =>
    exact ⟨y1, _, rfl, h.1.1.1.1.1.1⟩
  all_goals cases h

theorem valid_data_lt_NaT {s : String} (h : validPeriodKey s = true) :
    s.data < "NaT".data := by
  obtain ⟨c, rest, hd, hc⟩ := valid_first_digit h
  have hN : "NaT".data = ['N', 'a', 'T'] := rfl
  rw [hd, hN]
  exact List.Lex.rel (digitChar_lt_N hc)

theorem strLe_NaT_eq_false {b : String} (h : validPeriodKey b = true) :
    strLe "NaT" b = false := by
  unfold strLe
  rw [decide_eq_true (valid_data_lt_NaT h)]
  rfl

theorem valid_truthy {s : String} (h : validPeriodKey s = true) :
    truthy (some s) = true := by
  obtain ⟨c, rest, hd, _⟩ := valid_first_digit h
  simp only [truthy, Bool.not_eq_true']
  apply beq_eq_false_iff_ne.mpr
  intro he
  rw [he] at hd
  cases hd

theorem NaT_beq_valid_eq_false {k : String} (h : validPeriodKey k = true) :
    ("NaT" == k) = false := by
  have hne : validPeriodKey "NaT" = false := by decide
  apply beq_eq_false_iff_ne.mpr
  intro he
  rw [← he, hne] at h
  cases h

theorem periodMask_single_null {k : String} {sp ep : Option String} {r : Record}
    (hk : validPeriodKey k = true) (hr : r.startMonth = none) :
    periodMask (some k) sp ep r = false := by
  have hps : periodStr r = "NaT" := by simp [periodStr, hr]
  unfold periodMask
  rw [if_pos (valid_truthy hk), hps, Option.getD_some]
  exact NaT_beq_valid_eq_false hk

theorem periodMask_range_null {a b : String} {r : Record}
    (ha : validPeriodKey a = true) (hb : validPeriodKey b = true)
    (hr : r.startMonth = none) :
    periodMask none (some a) (some b) r = false := by
  have hps : periodStr r = "NaT" := by simp [periodStr, hr]
  unfold periodMask
  rw [if_neg (by simp [truthy])]
  rw [if_pos (by rw [valid_truthy ha, valid_truthy hb]; rfl)]
  simp only [Option.getD_some, hps]
  rw [strLe_NaT_eq_false hb, Bool.and_false]

theorem kept_false_of_null_start {p sp ep : Option String} {r : Record}
    (hv : ValidFilter p sp ep) (hr : r.startMonth = none) :
    recordKept p sp ep r = false := by
  unfold recordKept
  cases hv with
  | single k sp ep hk => rw [periodMask_single_null hk hr, Bool.false_and]
  | range a b ha hb => rw [periodMask_range_null ha hb hr, Bool.false_and]

theorem countFor_mid (A B : List Record) (r : Record) (h : r.idPerson = none) :
    countFor (A ++ r :: B) = countFor (A ++ B) := by
  funext i
  unfold countFor
  rw [filter_mid _ _ _ _ (by rw [h]; rfl)]

theorem groupIds_mid (A B : List Record) (r : Record) (h : r.idPerson = none) :
    groupIds (A ++ r :: B) = groupIds (A ++ B) := by
  unfold groupIds
  rw [filterMap_mid _ _ _ _ h]

theorem bookingFrequencies_mid (A B : List Record) (r : Record)
    (h : r.idPerson = none) :
    bookingFrequencies (A ++ r :: B) = bookingFrequencies (A ++ B) := by
  unfold bookingFrequencies
  rw [groupIds_mid A B r h, countFor_mid A B r h]

theorem restrictTo_mid (A B : List Record) (r : Record) (h : r.idPerson = none) :
    restrictTo (A ++ r :: B) = restrictTo (A ++ B) := by
  funext ids
  unfold restrictTo
  rw [filter_mid _ _ _ _ (by rw [h])]

theorem bucketIds_congr {l1 l2 : List Record}
    (h1 : bookingFrequencies l1 = bookingFrequencies l2) :
    bucketIds l1 = bucketIds l2 := by
  funext m f
  cases f with
  | inl k => simp only [bucketIds, h1]
  | inr s => simp only [bucketIds, h1]

theorem student_info_congr {l1 l2 : List Record}
    (h2 : restrictTo l1 = restrictTo l2) :
    student_info l1 = student_info l2 := by
  funext ids
  simp only [student_info, h2]

theorem freq_counts_congr {l1 l2 : List Record}
    (h1 : bookingFrequencies l1 = bookingFrequencies l2) :
    freq_counts l1 = freq_counts l2 := by
  funext i
  unfold freq_counts
  rw [h1]

theorem get_student_details_congr {l1 l2 : List Record}
    (h1 : bookingFrequencies l1 = bookingFrequencies l2)
    (h2 : restrictTo l1 = restrictTo l2) :
    get_student_details l1 = get_student_details l2 := by
  funext m f
  unfold get_student_details
  rw [bucketIds_congr h1, student_info_congr h2]

theorem tableFrom_congr {l1 l2 : List Record} (m : Nat)
    (h1 : bookingFrequencies l1 = bookingFrequencies l2)
    (h2 : restrictTo l1 = restrictTo l2) :
    tableFrom l1 m = tableFrom l2 m := by
  simp only [tableFrom, studentsCol, freqCountsVals, overflowCell,
    freq_counts_congr h1, get_student_details_congr h1 h2]

/-- C5: for every record set and every valid filter specification (a single
period key or a range of period keys), a record whose timestamp is
null/unparseable or whose personId is missing contributes to no bucket of
the returned table: removing that record from the data leaves the whole
table — every studentCount, cumulative column and details string —
unchanged. -/
theorem C5_null_or_missing_contributes_nothing (data1 data2 : List Record)
    (r : Record) (p sp ep : Option String) (m : Nat)
    (hv : ValidFilter p sp ep) (hr : r.startMonth = none ∨ r.idPerson = none) :
    create_frequency_table (data1 ++ r :: data2) p sp ep m =
      create_frequency_table (data1 ++ data2) p sp ep m := by
  unfold create_frequency_table
  rcases hr with hr | hr
  · rw [show filteredRecords (data1 ++ r :: data2) p sp ep
        = filteredRecords (data1 ++ data2) p sp ep from
      filter_mid _ _ _ _ (kept_false_of_null_start hv hr)]
  · by_cases hk : recordKept p sp ep r = true
    · have hfl : filteredRecords (data1 ++ r :: data2) p sp ep
          = filteredRecords data1 p sp ep ++ r :: filteredRecords data2 p sp ep := by
        simp [filteredRecords, List.filter_append, List.filter_cons, hk]
      have hfl2 : filteredRecords (data1 ++ data2) p sp ep
          = filteredRecords data1 p sp ep ++ filteredRecords data2 p sp ep := by
        simp [filteredRecords, List.filter_append]
      rw [hfl, hfl2]
      exact tableFrom_congr m (bookingFrequencies_mid _ _ _ hr)
        (restrictTo_mid _ _ _ hr)
    · rw [show filteredRecords (data1 ++ r :: data2) p sp ep
          = filteredRecords (data1 ++ data2) p sp ep from
        filter_mid _ _ _ _ (by simpa using hk)]

/-- C5 witness: a null-timestamp record is invisible to the table under the
single-period filter `2024-01`. -/
theorem C5_null_invisible_witness :
    ValidFilter (some "2024-01") none none ∧
    create_frequency_table ([] ++ rNull :: [rA]) (some "2024-01") none none 1 =
      create_frequency_table ([] ++ [rA]) (some "2024-01") none none 1 :=
  ⟨ValidFilter.single _ _ _ (by decide),
   C5_null_or_missing_contributes_nothing [] [rA] rNull _ _ _ 1
     (ValidFilter.single _ _ _ (by decide)) (Or.inl rfl)⟩

theorem selfPracticeMatch_eq_false_iff (c : Option String) :
    selfPracticeMatch c = false ↔
      ¬ ∃ s pre post, c = some s ∧
          pre ++ ("self practice").data ++ post = lowerData s := by
  cases c with
  | none => simp [selfPracticeMatch]
  | some s =>
    simp only [selfPracticeMatch]
    rw [decide_eq_false_iff_not]
    have hneedle : lowerData "Self Practice" = ("self practice").data := by
      decide
    rw [List.IsInfix, hneedle]
    constructor
    · rintro hni ⟨s2, pre, post, hs2, heq⟩
      cases hs2
      exact hni ⟨pre, post, heq⟩
    · rintro hne ⟨pre, post, heq⟩
      exact hne ⟨s, pre, post, rfl, heq⟩

/-- C6: among the records passing the period mask, `create_frequency_table`
drops exactly those whose `className` contains `"self practice"` as a
case-insensitive substring (surrounding text allowed), and a record with a
missing `className` is kept. -/
theorem C6_self_practice_exclusion (data : List Record) (p sp ep : Option String)
    (r : Record) :
    r ∈ filteredRecords data p sp ep ↔
      r ∈ data ∧ periodMask p sp ep r = true ∧
        ¬ ∃ s pre post, r.className = some s ∧
            pre ++ ("self practice").data ++ post = lowerData s := by
  unfold filteredRecords
  rw [List.mem_filter]
  unfold recordKept
  rw [Bool.and_eq_true, Bool.not_eq_true']
  rw [selfPracticeMatch_eq_false_iff]

/-- C6 witness: a plain record is kept while a record whose class name
contains "Self PRACTICE" amid other text is dropped. -/
theorem C6_self_practice_witness :
    rA ∈ filteredRecords [rA] none none none ∧
    (⟨some 1, some "A", some "xSelf PRACTICE y", some "2024-01"⟩ : Record) ∉
      filteredRecords [⟨some 1, some "A", some "xSelf PRACTICE y", some "2024-01"⟩]
        none none none := by
  constructor
  · exact (C6_self_practice_exclusion [rA] none none none rA).mpr
      ⟨List.mem_singleton.mpr rfl, rfl, by rintro ⟨s, pre, post, hs, _⟩; cases hs⟩
  · intro hmem
    obtain ⟨-, -, hno⟩ :=
      (C6_self_practice_exclusion _ none none none _).mp hmem
    exact hno ⟨"xSelf PRACTICE y", ['x'], [' ', 'y'], rfl, by decide⟩

/-- C8: `load_data` reports a failure (no dataset at all) exactly when the
timestamp column is absent or no value of it parses after coercion; in every
other case it returns all rows, with unparseable timestamps coerced to null
— an individual unparseable row never aborts the load. -/
theorem C8_load_data_contract (parse : String → Option String) (t : RawTable) :
    (load_data parse t = none ↔
      t.hasStartCol = false ∨ ∀ r ∈ t.rows, parse r.startCell = none) ∧
    (∀ recs, load_data parse t = some recs →
      recs = t.rows.map (coerceRow parse)) := by
  unfold load_data
  by_cases hc : t.hasStartCol = true
  · rw [if_pos hc]
    by_cases hall :
        (t.rows.map (fun r => parse r.startCell)).all (fun o => o.isNone) = true
    · rw [if_pos hall]
      refine ⟨⟨fun _ => Or.inr fun r hr => ?_, fun _ => rfl⟩,
        fun recs h => nomatch h⟩
      exact Option.isNone_iff_eq_none.mp
        (List.all_eq_true.mp hall (parse r.startCell)
          (List.mem_map_of_mem _ hr))
    · rw [if_neg hall]
      refine ⟨⟨fun h => (nomatch h), ?_⟩,
        fun recs h => by injection h with h2; exact h2.symm⟩
      rintro (h | h)
      · rw [hc] at h; cases h
      · exfalso
        apply hall
        apply List.all_eq_true.mpr
        intro o ho
        obtain ⟨r, hr, hfo⟩ := List.mem_map.mp ho
        rw [← hfo, h r hr]
        rfl
  · rw [if_neg hc]
    exact ⟨⟨fun _ => Or.inl (by simpa using hc), fun _ => rfl⟩,
      fun recs h => nomatch h⟩

/-- C8 witness: a loader whose parser accepts nothing fails on a one-row
table with the timestamp column present. -/
theorem C8_load_data_witness :
    load_data (fun _ => none) ⟨true, [⟨some 1, some "A", none, "x"⟩]⟩ = none :=
  (C8_load_data_contract (fun _ => none)
    ⟨true, [⟨some 1, some "A", none, "x"⟩]⟩).1.mpr (Or.inr fun _ _ => rfl)

theorem digitChar_isDigit {m : Nat} (h : m < 10) :
    (Nat.digitChar m).isDigit = true := by
  interval_cases m <;> decide

theorem toDigitsCore_all_digit (fuel : Nat) : ∀ (n : Nat) (acc : List Char),
    acc.all Char.isDigit = true →
    (Nat.toDigitsCore 10 fuel n acc).all Char.isDigit = true := by
  induction fuel with
  | zero => intro n acc hacc; exact hacc
  | succ f ih =>
    intro n acc hacc
    unfold Nat.toDigitsCore
    have hd : (Nat.digitChar (n % 10)).isDigit = true :=
      digitChar_isDigit (Nat.mod_lt _ (by omega))
    by_cases h0 : n / 10 = 0
    · simp [h0, List.all_cons, hd, hacc]
    · simp only [if_neg h0]
      exact ih (n / 10) _ (by simp [List.all_cons, hd, hacc])

theorem toDigitsCore_ne_nil (b fuel : Nat) : ∀ (n : Nat) (acc : List Char),
    acc ≠ [] → Nat.toDigitsCore b fuel n acc ≠ [] := by
  induction fuel with
  | zero => intro n acc h; exact h
  | succ f ih =>
    intro n acc h
    unfold Nat.toDigitsCore
    by_cases h0 : n / b = 0
    · simp [h0]
    · simp only [if_neg h0]
      exact ih (n / b) _ (by simp)

theorem toDigits_ne_nil (n : Nat) : Nat.toDigits 10 n ≠ [] := by
  unfold Nat.toDigits Nat.toDigitsCore
  by_cases h0 : n / 10 = 0
  · simp [h0]
  · simp only [if_neg h0]
    exact toDigitsCore_ne_nil 10 n (n / 10) _ (by simp)

theorem pyIsDigit_toString (n : Nat) : pyIsDigit (toString n) = true := by
  have hdig : (Nat.toDigits 10 n).all Char.isDigit = true :=
    toDigitsCore_all_digit (n + 1) n [] rfl
  show pyIsDigit ((Nat.toDigits 10 n).asString) = true
  rcases hl : Nat.toDigits 10 n with _ | ⟨c, cs⟩
  · exact absurd hl (toDigits_ne_nil n)
  · rw [hl] at hdig
    unfold pyIsDigit
    exact hdig

theorem zip_freq_students (fl : List Record) (m : Nat) :
    (freqCol m).zip (studentsCol fl m) =
      (((List.range' 1 m).map Sum.inl).zip
        ((List.range' 1 m).map (freq_counts fl))) ++
      [(Sum.inr (">" ++ toString m), overflowCell fl m)] := by
  unfold freqCol studentsCol
  rw [List.zip_append (by simp)]
  rfl

theorem pyIsDigit_overflow_label (m : Nat) :
    pyIsDigit (freqLabelStr (Sum.inr (">" ++ toString m))) = false := by
  have h : (">" ++ toString m).data = '>' :: (toString m).data := rfl
  have hgt : ('>').isDigit = false := by decide
  unfold freqLabelStr pyIsDigit
  simp only [h, List.all_cons, hgt, Bool.false_and]

theorem filter_keep_inl (ks cs : List Nat) :
    ((ks.map Sum.inl).zip cs).filter
      (fun p => pyIsDigit (freqLabelStr p.1)) = (ks.map Sum.inl).zip cs := by
  apply List.filter_eq_self.mpr
  intro p hp
  obtain ⟨k, -, hk⟩ := List.mem_map.mp (List.of_mem_zip hp).1
  rw [← hk]
  exact pyIsDigit_toString k

theorem expandPairs_eq_specExpand_inl (ks : List Nat) : ∀ cs : List Nat,
    expandPairs ((ks.map Sum.inl).zip cs) =
      specExpand ((ks.map Sum.inl).zip cs) := by
  induction ks with
  | nil => intro cs; rfl
  | cons k ks ih =>
    intro cs
    cases cs with
    | nil => rfl
    | cons c cs =>
      simp only [List.map_cons, List.zip_cons_cons, expandPairs, specExpand,
        astypeInt]
      exact congrArg (fun t => List.replicate c k ++ t) (ih cs)

theorem specExpand_append (xs ys : List ((Nat ⊕ String) × Nat)) :
    specExpand (xs ++ ys) = specExpand xs ++ specExpand ys := by
  induction xs with
  | nil => rfl
  | cons p ps ih =>
    rcases p with ⟨f, c⟩
    cases f with
    | inl k => simp [specExpand, ih, List.append_assoc]
    | inr s => simp [specExpand, ih]

theorem expandedFreqs_eq_specExpanded (fl : List Record) (m : Nat) :
    expandedFreqs (tableFrom fl m) = specExpanded (tableFrom fl m) := by
  have hfreq : (tableFrom fl m).freq = freqCol m := rfl
  have hstud : (tableFrom fl m).students = studentsCol fl m := rfl
  unfold expandedFreqs specExpanded
  rw [hfreq, hstud, zip_freq_students, List.filter_append, filter_keep_inl,
    specExpand_append]
  have h1 : ([((Sum.inr (">" ++ toString m) : Nat ⊕ String),
      overflowCell fl m)].filter (fun p => pyIsDigit (freqLabelStr p.1))) = [] := by
    simp [List.filter, pyIsDigit_overflow_label m]
  have h2 : specExpand [((Sum.inr (">" ++ toString m) : Nat ⊕ String),
      overflowCell fl m)] = [] := rfl
  rw [h1, h2, List.append_nil, List.append_nil]
  exact expandPairs_eq_specExpand_inl _ _

/-- C9: the chart statistics of `plot_histogram` are the arithmetic mean and
the median of exactly the multiset in which each numeric bucket contributes
`studentCount` copies of its `freq` and the overflow bucket contributes
nothing; when that multiset is empty both statistics are undefined (`none`,
modelling pandas `NaN`) — no zero or other number is silently produced. -/
theorem C9_chart_statistics (data : List Record) (p sp ep : Option String)
    (m : Nat) :
    plotStats (create_frequency_table data p sp ep m) =
      (meanQ (specExpanded (create_frequency_table data p sp ep m)),
       medianQ (specExpanded (create_frequency_table data p sp ep m))) ∧
    (specExpanded (create_frequency_table data p sp ep m) = [] →
      plotStats (create_frequency_table data p sp ep m) = (none, none)) := by
  have he : expandedFreqs (create_frequency_table data p sp ep m)
      = specExpanded (create_frequency_table data p sp ep m) :=
    expandedFreqs_eq_specExpanded _ _
  constructor
  · unfold plotStats
    rw [he]
  · intro h0
    unfold plotStats
    rw [he, h0]
    rfl

/-- C9 witness: on an empty data set the expansion multiset is empty and
both statistics are undefined. -/
theorem C9_chart_statistics_witness :
    specExpanded (create_frequency_table [] (some "2024-01") none none 1) = [] ∧
    plotStats (create_frequency_table [] (some "2024-01") none none 1) =
      (none, none) :=
  ⟨rfl, (C9_chart_statistics [] (some "2024-01") none none 1).2 rfl⟩
